import Mathlib

/-!
Shallow embedding of `omnivers3/gateway-reqwest` (src/src/lib.rs).

The crate implements `gateway::Service` for `ReqwestService`: a GET-and-decode
pipeline producing the three-way `ServiceResult` (Ok / Err / Fail).  External
collaborators (the url crate's parse/join, the reqwest transport and body read,
and serde_json decoding) are modelled as pure oracle functions gathered in an
`Oracle` record; every collaborator invocation is additionally recorded in a
trace of `Event`s so that claims about which collaborator runs on which path
can be stated.
-/

deriving instance DecidableEq for Except

namespace GatewayReqwest

/-- A rendered URL (the url crate's `Url`, kept abstract as its string form). -/
abbrev Url := String

/-- The url crate's `ParseError`; only the variant the repository's test
inspects (`RelativeUrlWithoutBase`) is distinguished. -/
inductive UrlParseError where
  | RelativeUrlWithoutBase
  | other (msg : String)
deriving Repr, DecidableEq

/-- A `reqwest::Error`, kept abstract as its message. -/
abbrev ReqwestError := String

/-- A `serde_json::Error`, kept abstract as its message. -/
abbrev SerdeError := String

/-- The `gateway` crate's `Error` as used by `with_url`
(`gateway::Error::UrlParseFailed` is the variant the test matches on). -/
inductive GatewayError where
  | UrlParseFailed (e : UrlParseError)
deriving Repr, DecidableEq

/-- `enum Error` of src/src/lib.rs. -/
inductive Error where
  | AppendPathFailed (e : UrlParseError)
  | RequestFailed (e : ReqwestError)
  | ReadBodyFailed (e : ReqwestError)
  | ResultFailed (payload : String)
  | InvalidPayload (serde_error : SerdeError) (payload : String)
deriving Repr, DecidableEq

/-- `struct ReqwestService { url: url::Url }`. -/
structure ReqwestService where
  url : Url
deriving Repr, DecidableEq

/-- `enum Request` of src/src/lib.rs (single variant `Get { path }`). -/
inductive Request where
  | Get (path : String)
deriving Repr, DecidableEq

/-- The `gateway` crate's `ServiceResult` as used by `exec`:
`Ok (TResponse)`, `Err (service error, decoded error payload)`,
`Fail (service error, optional serde error)`. -/
inductive ServiceResult (TResponse TServiceError TError TSerde : Type) where
  | Ok (resp : TResponse)
  | Err (svcErr : TServiceError) (apiErr : TError)
  | Fail (svcErr : TServiceError) (serdeErr : Option TSerde)
deriving Repr, DecidableEq

/-- A `reqwest::Response` handle: its status code, and the outcome that
reading its body (`.text()`) would produce. -/
structure Response where
  status : Nat
  body : Except ReqwestError String
deriving Repr, DecidableEq

/-- Which target type a serde decode was aimed at. -/
inductive DecodeTarget where
  | successType
  | errorType
deriving Repr, DecidableEq

/-- Collaborator invocations observable during a call. -/
inductive Event where
  | transportCall (url : Url)
  | bodyRead
  | decodeAttempt (target : DecodeTarget) (ok : Bool)
deriving Repr, DecidableEq

/-- The external collaborators, as pure functions:
`join` is `url::Url::join`, `transport` is `reqwest::get`,
`decodeSuccess` / `decodeError` are `serde_json::from_str` at the endpoint's
`TResponse` / `TError` types. -/
structure Oracle (TResponse TError : Type) where
  join : Url → String → Except UrlParseError Url
  transport : Url → Except ReqwestError Response
  decodeSuccess : String → Except SerdeError TResponse
  decodeError : String → Except SerdeError TError

/-- `Except.isOk`, written out locally. -/
def exceptOk {ε α : Type} : Except ε α → Bool
  | .ok _ => true
  | .error _ => false

/-- Modelled from the spec: `gateway::parse_url` lives in the external
`gateway` crate, not under src/.  Per the spec (§6, §8) construction "fails if
`baseAddress` is not a valid absolute URL", wrapping the url-crate parse error
(test `fail_ctor_with_empty_url` matches `gateway::Error::UrlParseFailed` and,
for the empty string, the `RelativeUrlWithoutBase` cause).  The url-crate
parser itself is an external collaborator passed in as `parse`. -/
def parse_url (parse : String → Except UrlParseError Url) (url_str : String) :
    Except GatewayError Url :=
  match parse url_str with
  | .ok u => .ok u
  | .error e => .error (GatewayError.UrlParseFailed e)

/-- `ReqwestService::with_url`.  Performs only URL parsing; it takes no
transport collaborator, so no network call can occur during construction. -/
def with_url (parse : String → Except UrlParseError Url) (url_str : String) :
    Except GatewayError ReqwestService :=
  match parse_url parse url_str with
  | .ok u => .ok { url := u }
  | .error e => .error e

/-- `fn build_path`: `url.join(&path).map_err(Error::AppendPathFailed)`. -/
def build_path (join : Url → String → Except UrlParseError Url)
    (url : Url) (path : String) : Except Error Url :=
  match join url path with
  | .ok u => .ok u
  | .error e => .error (Error.AppendPathFailed e)

/-- `fn get`: `reqwest::get(url.as_str()).map_err(Error::RequestFailed)`;
invoking the transport is recorded in the trace. -/
def get {TResponse TError : Type} (O : Oracle TResponse TError) (url : Url) :
    Except Error Response × List Event :=
  (match O.transport url with
   | .ok r => .ok r
   | .error e => .error (Error.RequestFailed e),
   [Event.transportCall url])

/-- `fn exec_request`: resolve the request against the stored base url and
issue the GET; `build_path(url, path).and_then(get)`, so the transport is
invoked only when joining succeeded. -/
def exec_request {TResponse TError : Type} (O : Oracle TResponse TError)
    (svc : ReqwestService) (req : Request) : Except Error Response × List Event :=
  let url := svc.url
  match req with
  | Request.Get path =>
    match build_path O.join url path with
    | .error e => (.error e, [])
    | .ok u => get O u

/-- `fn extract_text`: `response.text().map_err(Error::ReadBodyFailed)`;
reading the body is recorded in the trace. -/
def extract_text (resp : Response) : Except Error String × List Event :=
  (match resp.body with
   | .ok t => .ok t
   | .error e => .error (Error.ReadBodyFailed e),
   [Event.bodyRead])

/-- `fn validate_status`: on status 200 pass the body text through; otherwise
build `Error::ResultFailed` and eagerly attempt the `TError` decode of the
body, carrying its full result as `Some(...)`. -/
def validate_status {TError : Type} (decodeError : String → Except SerdeError TError)
    (status : Nat) (text : String) :
    Except (Error × Option (Except SerdeError TError)) String × List Event :=
  if status = 200 then
    (.ok text, [])
  else
    let d := decodeError text
    (.error (Error.ResultFailed text, some d),
     [Event.decodeAttempt DecodeTarget.errorType (exceptOk d)])

/-- `fn parse_response`: decode the body text as `TResponse`; on decode
failure build `Error::InvalidPayload` (carrying the serde error and the raw
body text) and, inside `map_err`, also attempt the `TError` decode of the same
text, carrying its full result as `Some(...)`. -/
def parse_response {TResponse TError : Type}
    (decodeSuccess : String → Except SerdeError TResponse)
    (decodeError : String → Except SerdeError TError) (text : String) :
    Except (Error × Option (Except SerdeError TError)) TResponse × List Event :=
  match decodeSuccess text with
  | .ok v => (.ok v, [Event.decodeAttempt DecodeTarget.successType true])
  | .error serde_error =>
    let d := decodeError text
    (.error (Error.InvalidPayload serde_error text, some d),
     [Event.decodeAttempt DecodeTarget.successType false,
      Event.decodeAttempt DecodeTarget.errorType (exceptOk d)])

/-- The final `match result` of `ReqwestService::exec`, merging the pipeline
result into the three-way `ServiceResult`. -/
def classify {TResponse TError : Type}
    (r : Except (Error × Option (Except SerdeError TError)) TResponse) :
    ServiceResult TResponse Error TError SerdeError :=
  match r with
  | .ok resp => .Ok resp
  | .error (svc_err, none) => .Fail svc_err none
  | .error (svc_err, some (.ok err)) => .Err svc_err err
  | .error (svc_err, some (.error serde_err)) => .Fail svc_err (some serde_err)

/-- `ReqwestService::exec` (`impl Service for ReqwestService`): run
`exec_request`, read the body, validate the status, parse the payload, and
classify; each stage short-circuits, pre-body failures carry `None` as the
optional decode attempt.  Alongside the `ServiceResult`, the trace of
collaborator invocations is returned. -/
def exec {TResponse TError : Type} (O : Oracle TResponse TError)
    (svc : ReqwestService) (req : Request) :
    ServiceResult TResponse Error TError SerdeError × List Event :=
  match exec_request O svc req with
  | (.error err, t1) => (@classify TResponse TError (.error (err, none)), t1)
  | (.ok resp, t1) =>
    match extract_text resp with
    | (.error err, tb) => (@classify TResponse TError (.error (err, none)), t1 ++ tb)
    | (.ok text, tb) =>
      match validate_status O.decodeError resp.status text with
      | (.error p, tv) => (@classify TResponse TError (.error p), t1 ++ tb ++ tv)
      | (.ok text2, tv) =>
        match parse_response O.decodeSuccess O.decodeError text2 with
        | (pr, tp) => (classify pr, t1 ++ tb ++ tv ++ tp)

/-- `exec_request` with the service state threaded explicitly: the body of
`exec_request` begins with `let url = svc.url.to_owned()` — a read-only copy —
and the service handed back is rebuilt from exactly that copy, making the
absence of mutation of the stored base url explicit. -/
def exec_request_state {TResponse TError : Type} (O : Oracle TResponse TError)
    (svc : ReqwestService) (req : Request) :
    (Except Error Response × List Event) × ReqwestService :=
  let url := svc.url
  ((match req with
    | Request.Get path =>
      match build_path O.join url path with
      | .error e => (.error e, [])
      | .ok u => get O u),
   { url := url })

/-! Concrete collaborator instantiations used to exhibit behaviours and to
instantiate the theorems below (payload types are `Nat` on both sides). -/

/-- An oracle whose join appends the path, whose transport always answers with
the given status and body-read outcome, and whose decoders return the given
constant results. -/
def mkOracle (status : Nat) (body : Except ReqwestError String)
    (ds : Except SerdeError Nat) (de : Except SerdeError Nat) : Oracle Nat Nat :=
  { join := fun u p => Except.ok (u ++ p)
    transport := fun _ => Except.ok { status := status, body := body }
    decodeSuccess := fun _ => ds
    decodeError := fun _ => de }

/-- Status 200, readable body, both decodes succeed. -/
def oracle200ok : Oracle Nat Nat := mkOracle 200 (.ok "body") (.ok 5) (.ok 7)

/-- Status 200, readable body, success decode fails, error decode succeeds. -/
def oracle200sFailEOk : Oracle Nat Nat := mkOracle 200 (.ok "body") (.error "sErr") (.ok 7)

/-- Status 200, readable body, both decodes fail. -/
def oracle200bothFail : Oracle Nat Nat := mkOracle 200 (.ok "body") (.error "sErr") (.error "eErr")

/-- Status 404, readable body, error decode succeeds. -/
def oracle404eOk : Oracle Nat Nat := mkOracle 404 (.ok "body") (.ok 5) (.ok 7)

/-- Status 404, readable body, error decode fails. -/
def oracle404eFail : Oracle Nat Nat := mkOracle 404 (.ok "body") (.ok 5) (.error "eErr")

/-- An oracle whose join always fails. -/
def oracleJoinFail : Oracle Nat Nat :=
  { join := fun _ _ => Except.error (UrlParseError.other "bad path")
    transport := fun _ => Except.ok { status := 200, body := Except.ok "body" }
    decodeSuccess := fun _ => Except.ok 5
    decodeError := fun _ => Except.ok 7 }

/-- A url parser that rejects the empty string with `RelativeUrlWithoutBase`
(the url crate's behaviour asserted by test `fail_ctor_with_empty_url`). -/
def parseEmptyFails : String → Except UrlParseError Url :=
  fun s => if s = "" then Except.error UrlParseError.RelativeUrlWithoutBase else Except.ok s

/-- C1 (counterexample): the claim "a 200 response whose body fails to decode
as `SuccessPayload` always yields `ServiceResult::Fail`, never the
`ApplicationError` outcome" is false at a concrete input: with status 200, a
failing success decode and a body that happens to decode as `ErrorPayload`,
`exec` returns `ServiceResult.Err` (the `ApplicationError` outcome) and not
`ServiceResult.Fail`. -/
theorem success_status_bad_payload_not_always_fail :
    (exec oracle200sFailEOk ⟨"base/"⟩ (Request.Get "p")).1 =
      ServiceResult.Err (Error.InvalidPayload "sErr" "body") 7 ∧
    ∀ e o, (exec oracle200sFailEOk ⟨"base/"⟩ (Request.Get "p")).1 ≠ ServiceResult.Fail e o := by
  constructor
  · rfl
  · intro e o h
    have h2 : (ServiceResult.Err (Error.InvalidPayload "sErr" "body") 7 :
        ServiceResult Nat Error Nat SerdeError) = ServiceResult.Fail e o := h
    cases h2

/-- C1 (amended): on a 200 response whose body fails to decode as
`SuccessPayload`, `exec` never returns the `Success` outcome; it returns
`ServiceResult.Fail` carrying `InvalidPayload` with a populated decode error
when the body also fails to decode as `ErrorPayload`, but it returns the
`ApplicationError` outcome `ServiceResult.Err` (carrying `InvalidPayload` and
the decoded value) when the body does decode as `ErrorPayload`. -/
theorem exec_success_status_bad_payload {TResponse TError : Type}
    (O : Oracle TResponse TError) (svc : ReqwestService)
    (path u text : String) (status : Nat) (serr : SerdeError)
    (hj : O.join svc.url path = .ok u)
    (ht : O.transport u = .ok { status := status, body := .ok text })
    (hs : status = 200)
    (hds : O.decodeSuccess text = .error serr) :
    (∀ ee, O.decodeError text = .error ee →
      (exec O svc (Request.Get path)).1 =
        ServiceResult.Fail (Error.InvalidPayload serr text) (some ee)) ∧
    (∀ e, O.decodeError text = .ok e →
      (exec O svc (Request.Get path)).1 =
        ServiceResult.Err (Error.InvalidPayload serr text) e) ∧
    (∀ v, (exec O svc (Request.Get path)).1 ≠ ServiceResult.Ok v) := by
  subst hs
  refine ⟨fun ee hde => ?_, fun e hde => ?_, fun v => ?_⟩ <;>
    first
      | simp [exec, exec_request, build_path, get, extract_text, validate_status,
              parse_response, classify, hj, ht, hds, hde, exceptOk]
      | (cases hde : O.decodeError text <;>
          simp [exec, exec_request, build_path, get, extract_text, validate_status,
                parse_response, classify, hj, ht, hds, hde, exceptOk])

/-- C1 (witness): the amended claim at a concrete input where both decodes
fail — the outcome is `Fail (InvalidPayload ...) (some ...)`. -/
theorem exec_success_status_bad_payload_witness :
    (exec oracle200bothFail ⟨"base/"⟩ (Request.Get "p")).1 =
      ServiceResult.Fail (Error.InvalidPayload "sErr" "body") (some "eErr") :=
  (exec_success_status_bad_payload oracle200bothFail ⟨"base/"⟩ "p" "base/p" "body" 200 "sErr"
    rfl rfl rfl rfl).1 "eErr" rfl

/-- C2: on a non-200 response whose body decodes cleanly as `ErrorPayload`,
`exec` returns `ServiceResult.Err` (the `ApplicationError` outcome) carrying
`ResultFailed` together with the decoded `ErrorPayload` value. -/
theorem exec_failure_status_decodable_error {TResponse TError : Type}
    (O : Oracle TResponse TError) (svc : ReqwestService)
    (path u text : String) (status : Nat) (e : TError)
    (hj : O.join svc.url path = .ok u)
    (ht : O.transport u = .ok { status := status, body := .ok text })
    (hs : status ≠ 200)
    (hd : O.decodeError text = .ok e) :
    (exec O svc (Request.Get path)).1 = ServiceResult.Err (Error.ResultFailed text) e := by
  simp [exec, exec_request, build_path, get, extract_text, validate_status, parse_response,
        classify, hj, ht, hd, hs, exceptOk]

/-- C2 (witness): concrete 404 call with a decodable error body. -/
theorem exec_failure_status_decodable_error_witness :
    (exec oracle404eOk ⟨"base/"⟩ (Request.Get "p")).1 =
      ServiceResult.Err (Error.ResultFailed "body") 7 :=
  exec_failure_status_decodable_error oracle404eOk ⟨"base/"⟩ "p" "base/p" "body" 404 7
    rfl rfl (by decide) rfl

/-- C3: on a non-200 response whose body does not decode as `ErrorPayload`,
`exec` returns `ServiceResult.Fail` carrying `ResultFailed` together with a
populated (`some`) decode error. -/
theorem exec_failure_status_undecodable_error {TResponse TError : Type}
    (O : Oracle TResponse TError) (svc : ReqwestService)
    (path u text : String) (status : Nat) (ee : SerdeError)
    (hj : O.join svc.url path = .ok u)
    (ht : O.transport u = .ok { status := status, body := .ok text })
    (hs : status ≠ 200)
    (hd : O.decodeError text = .error ee) :
    (exec O svc (Request.Get path)).1 =
      ServiceResult.Fail (Error.ResultFailed text) (some ee) := by
  simp [exec, exec_request, build_path, get, extract_text, validate_status, parse_response,
        classify, hj, ht, hd, hs, exceptOk]

/-- C3 (witness): concrete 404 call whose body fails the error decode. -/
theorem exec_failure_status_undecodable_error_witness :
    (exec oracle404eFail ⟨"base/"⟩ (Request.Get "p")).1 =
      ServiceResult.Fail (Error.ResultFailed "body") (some "eErr") :=
  exec_failure_status_undecodable_error oracle404eFail ⟨"base/"⟩ "p" "base/p" "body" 404 "eErr"
    rfl rfl (by decide) rfl

/-- C4: on a 200 response whose body decodes cleanly as `SuccessPayload`,
`exec` returns `ServiceResult.Ok` carrying exactly the decoded value, and no
decode at the `ErrorPayload` type is attempted on that call. -/
theorem exec_success_status_good_payload {TResponse TError : Type}
    (O : Oracle TResponse TError) (svc : ReqwestService)
    (path u text : String) (v : TResponse)
    (hj : O.join svc.url path = .ok u)
    (ht : O.transport u = .ok { status := 200, body := .ok text })
    (hd : O.decodeSuccess text = .ok v) :
    (exec O svc (Request.Get path)).1 = ServiceResult.Ok v ∧
      ∀ b, Event.decodeAttempt DecodeTarget.errorType b ∉ (exec O svc (Request.Get path)).2 := by
  simp [exec, exec_request, build_path, get, extract_text, validate_status, parse_response,
        classify, hj, ht, hd, exceptOk]

/-- C4 (witness): concrete 200 call with a decodable success body. -/
theorem exec_success_status_good_payload_witness :
    (exec oracle200ok ⟨"base/"⟩ (Request.Get "p")).1 = ServiceResult.Ok 5 ∧
    Event.decodeAttempt DecodeTarget.errorType true ∉
      (exec oracle200ok ⟨"base/"⟩ (Request.Get "p")).2 ∧
    Event.decodeAttempt DecodeTarget.errorType false ∉
      (exec oracle200ok ⟨"base/"⟩ (Request.Get "p")).2 := by
  have h := exec_success_status_good_payload oracle200ok ⟨"base/"⟩ "p" "base/p" "body" 5
    rfl rfl rfl
  exact ⟨h.1, h.2 true, h.2 false⟩

/-- C5 (counterexample): the claim "on the success path (status 200) the
error-type decode is never attempted" is false at a concrete input: the
transport answers 200, yet the trace of the call records a decode attempt at
the error type (it happens inside `parse_response`'s `map_err` when the
success decode fails). -/
theorem error_decode_attempted_on_success_path :
    oracle200bothFail.transport "base/p" =
      Except.ok { status := 200, body := Except.ok "body" } ∧
    Event.decodeAttempt DecodeTarget.errorType false ∈
      (exec oracle200bothFail ⟨"base/"⟩ (Request.Get "p")).2 :=
  ⟨rfl, by decide⟩

/-- C5 (amended): on the failure path (status ≠ 200) the success-type decode
is never attempted; on the success path (status 200) the error-type decode is
attempted exactly when the success-type decode of the body fails. -/
theorem decode_targets_per_path {TResponse TError : Type}
    (O : Oracle TResponse TError) (svc : ReqwestService)
    (path u text : String) (status : Nat)
    (hj : O.join svc.url path = .ok u)
    (ht : O.transport u = .ok { status := status, body := .ok text }) :
    (status ≠ 200 →
      ∀ b, Event.decodeAttempt DecodeTarget.successType b ∉
        (exec O svc (Request.Get path)).2) ∧
    (status = 200 →
      ((∃ b, Event.decodeAttempt DecodeTarget.errorType b ∈
          (exec O svc (Request.Get path)).2) ↔
        exceptOk (O.decodeSuccess text) = false)) := by
  constructor
  · intro hs b
    simp [exec, exec_request, build_path, get, extract_text, validate_status, parse_response,
          classify, hj, ht, hs, exceptOk]
  · intro hs
    subst hs
    cases hds : O.decodeSuccess text <;>
      simp [exec, exec_request, build_path, get, extract_text, validate_status, parse_response,
            classify, hj, ht, hds, exceptOk]

/-- C5 (witness): concrete 404 call — neither decode attempt at the success
type appears in the trace. -/
theorem decode_targets_per_path_witness :
    Event.decodeAttempt DecodeTarget.successType true ∉
      (exec oracle404eFail ⟨"base/"⟩ (Request.Get "p")).2 ∧
    Event.decodeAttempt DecodeTarget.successType false ∉
      (exec oracle404eFail ⟨"base/"⟩ (Request.Get "p")).2 := by
  have h := decode_targets_per_path oracle404eFail ⟨"base/"⟩ "p" "base/p" "body" 404 rfl rfl
  exact ⟨h.1 (by decide) true, h.1 (by decide) false⟩

/-- C6: whenever `exec` returns `ServiceResult.Fail e opt`, the optional
decode error `opt` is `some` exactly when some decode attempt failed during
the call; and when `e` is `AppendPathFailed`, `RequestFailed` or
`ReadBodyFailed` (no decodable body was reached), `opt` is `none`. -/
theorem fail_decode_error_iff_decode_failed {TResponse TError : Type}
    (O : Oracle TResponse TError) (svc : ReqwestService)
    (path : String) (e : Error) (opt : Option SerdeError)
    (hfail : (exec O svc (Request.Get path)).1 = ServiceResult.Fail e opt) :
    (opt.isSome = true ↔
      ∃ t, Event.decodeAttempt t false ∈ (exec O svc (Request.Get path)).2) ∧
    (∀ pe, e = Error.AppendPathFailed pe → opt = none) ∧
    (∀ re, e = Error.RequestFailed re → opt = none) ∧
    (∀ re, e = Error.ReadBodyFailed re → opt = none) := by
  cases hj : O.join svc.url path with
  | error pe =>
    simp_all [exec, exec_request, build_path, get, extract_text, validate_status,
              parse_response, classify, hj, exceptOk]
  | ok u =>
    cases ht : O.transport u with
    | error re =>
      simp_all [exec, exec_request, build_path, get, extract_text, validate_status,
                parse_response, classify, hj, ht, exceptOk]
    | ok resp =>
      obtain ⟨st, bd⟩ := resp
      cases bd with
      | error re =>
        simp_all [exec, exec_request, build_path, get, extract_text, validate_status,
                  parse_response, classify, hj, ht, exceptOk]
      | ok text =>
        by_cases hs : st = 200
        · subst hs
          cases hds : O.decodeSuccess text with
          | ok v =>
            simp_all [exec, exec_request, build_path, get, extract_text, validate_status,
                      parse_response, classify, hj, ht, hds, exceptOk]
          | error serr =>
            cases hde : O.decodeError text with
            | ok e2 =>
              simp_all [exec, exec_request, build_path, get, extract_text, validate_status,
                        parse_response, classify, hj, ht, hds, hde, exceptOk]
            | error ee =>
              simp_all [exec, exec_request, build_path, get, extract_text, validate_status,
                        parse_response, classify, hj, ht, hds, hde, exceptOk]
              obtain ⟨rfl, rfl⟩ := hfail
              simp
        · cases hde : O.decodeError text with
          | ok e2 =>
            simp_all [exec, exec_request, build_path, get, extract_text, validate_status,
                      parse_response, classify, hj, ht, hde, hs, exceptOk]
          | error ee =>
            simp_all [exec, exec_request, build_path, get, extract_text, validate_status,
                      parse_response, classify, hj, ht, hde, hs, exceptOk]
            obtain ⟨rfl, rfl⟩ := hfail
            simp

/-- C6 (witness): concrete 200 call where both decodes fail — the outcome is
`Fail` with a populated option, and a failed decode attempt is in the trace. -/
theorem fail_decode_error_iff_decode_failed_witness :
    ((some "eErr" : Option SerdeError).isSome = true ↔
      ∃ t, Event.decodeAttempt t false ∈
        (exec oracle200bothFail ⟨"base/"⟩ (Request.Get "p")).2) ∧
    (∀ pe, Error.InvalidPayload "sErr" "body" = Error.AppendPathFailed pe →
      (some "eErr" : Option SerdeError) = none) ∧
    (∀ re, Error.InvalidPayload "sErr" "body" = Error.RequestFailed re →
      (some "eErr" : Option SerdeError) = none) ∧
    (∀ re, Error.InvalidPayload "sErr" "body" = Error.ReadBodyFailed re →
      (some "eErr" : Option SerdeError) = none) :=
  fail_decode_error_iff_decode_failed oracle200bothFail ⟨"base/"⟩ "p"
    (Error.InvalidPayload "sErr" "body") (some "eErr") rfl

/-- C7: when joining the request path onto the stored base url fails, `exec`
returns `ServiceResult.Fail` carrying `AppendPathFailed` with the underlying
parse error and no decode error, and the transport is never invoked (the
trace of collaborator invocations is empty). -/
theorem join_failure_short_circuits {TResponse TError : Type}
    (O : Oracle TResponse TError) (svc : ReqwestService)
    (path : String) (pe : UrlParseError)
    (hj : O.join svc.url path = .error pe) :
    exec O svc (Request.Get path) =
      (ServiceResult.Fail (Error.AppendPathFailed pe) none, []) ∧
    ∀ u, Event.transportCall u ∉ (exec O svc (Request.Get path)).2 := by
  constructor <;>
    simp [exec, exec_request, build_path, get, classify, hj]

/-- C7 (witness): concrete call with a failing join. -/
theorem join_failure_short_circuits_witness :
    exec oracleJoinFail ⟨"base/"⟩ (Request.Get "p") =
      (ServiceResult.Fail (Error.AppendPathFailed (UrlParseError.other "bad path")) none, []) :=
  (join_failure_short_circuits oracleJoinFail ⟨"base/"⟩ "p" (UrlParseError.other "bad path")
    rfl).1

/-- C8: when the base-address string fails to parse as an absolute URL,
`with_url` returns the configuration error as an `Err` value (`with_url` is a
total function into `Except`, so no abort is possible, and it takes no
transport collaborator, so no network call can occur); in particular, when
the parser rejects the empty string with a relative-URL-without-base cause,
`with_url ""` returns exactly that error. -/
theorem with_url_invalid_base_fails
    (parse : String → Except UrlParseError Url) (s : String) (pe : UrlParseError)
    (hp : parse s = .error pe) :
    with_url parse s = .error (GatewayError.UrlParseFailed pe) ∧
    (parse "" = .error UrlParseError.RelativeUrlWithoutBase →
      with_url parse "" = .error
        (GatewayError.UrlParseFailed UrlParseError.RelativeUrlWithoutBase)) := by
  constructor
  · simp [with_url, parse_url, hp]
  · intro h
    simp [with_url, parse_url, h]

/-- C8 (witness): constructing from the empty string against the url parser
that rejects it yields the relative-URL-without-base configuration error. -/
theorem with_url_invalid_base_fails_witness :
    with_url parseEmptyFails "" =
      .error (GatewayError.UrlParseFailed UrlParseError.RelativeUrlWithoutBase) :=
  (with_url_invalid_base_fails parseEmptyFails "" UrlParseError.RelativeUrlWithoutBase
    (by decide)).1

/-- C9: `exec` is deterministic and mutation-free — two invocations on the
same service and request whose collaborators answer identically produce the
same outcome and trace, and the service state threaded through
`exec_request_state` comes back equal to the input service (the stored base
url is only read). -/
theorem exec_deterministic_readonly {TResponse TError : Type}
    (O1 O2 : Oracle TResponse TError) (svc : ReqwestService) (req : Request)
    (hj : ∀ u p, O1.join u p = O2.join u p)
    (ht : ∀ u, O1.transport u = O2.transport u)
    (hds : ∀ t, O1.decodeSuccess t = O2.decodeSuccess t)
    (hde : ∀ t, O1.decodeError t = O2.decodeError t) :
    exec O1 svc req = exec O2 svc req ∧
    (exec_request_state O1 svc req).2 = svc := by
  have hO : O1 = O2 := by
    cases O1; cases O2
    simp only [Oracle.mk.injEq]
    exact ⟨funext fun u => funext fun p => hj u p, funext ht, funext hds, funext hde⟩
  constructor
  · rw [hO]
  · cases svc; rfl

/-- C9 (witness): the same concrete oracle twice. -/
theorem exec_deterministic_readonly_witness :
    exec oracle200ok ⟨"base/"⟩ (Request.Get "p") =
      exec oracle200ok ⟨"base/"⟩ (Request.Get "p") ∧
    (exec_request_state oracle200ok ⟨"base/"⟩ (Request.Get "p")).2 = ⟨"base/"⟩ :=
  exec_deterministic_readonly oracle200ok oracle200ok ⟨"base/"⟩ (Request.Get "p")
    (fun _ _ => rfl) (fun _ => rfl) (fun _ => rfl) (fun _ => rfl)

/-- C10: on a 200 response whose body fails to decode both as
`SuccessPayload` and as `ErrorPayload`, the resulting `ServiceResult.Fail`
surfaces both decode errors in distinct places: `InvalidPayload` carries the
success-type decode error together with the raw body text, and the outcome's
optional field carries the error-type decode failure. -/
theorem exec_both_decodes_fail_two_errors {TResponse TError : Type}
    (O : Oracle TResponse TError) (svc : ReqwestService)
    (path u text : String) (serr eerr : SerdeError)
    (hj : O.join svc.url path = .ok u)
    (ht : O.transport u = .ok { status := 200, body := .ok text })
    (hds : O.decodeSuccess text = .error serr)
    (hde : O.decodeError text = .error eerr) :
    (exec O svc (Request.Get path)).1 =
      ServiceResult.Fail (Error.InvalidPayload serr text) (some eerr) := by
  simp [exec, exec_request, build_path, get, extract_text, validate_status, parse_response,
        classify, hj, ht, hds, hde, exceptOk]

/-- C10 (witness): concrete 200 call where both decodes fail. -/
theorem exec_both_decodes_fail_two_errors_witness :
    (exec oracle200bothFail ⟨"base/"⟩ (Request.Get "str")).1 =
      ServiceResult.Fail (Error.InvalidPayload "sErr" "body") (some "eErr") :=
  exec_both_decodes_fail_two_errors oracle200bothFail ⟨"base/"⟩ "str" "base/str" "body"
    "sErr" "eErr" rfl rfl rfl rfl

end GatewayReqwest
